import Mathlib

/-!
Shallow embedding of the login session lifecycle manager of the
idd-add-bot repository (`src/account.py`, `src/otp.py`) together with
theorems settling the specification claims about it.

The embedding translates the Python source directly:

* `extractOtpFromText` embeds `otp.py::extract_otp_from_text`;
* `getLatestOtp` (with `scan777Step`/`scanTgStep`) embeds the message-scan
  core of `account.py::_get_latest_otp_async` (lines 807-845), taking the
  two fetched chat histories as explicit inputs;
* `encrypt`/`decrypt` embed `account.py::EncryptionManager`, with the
  Fernet cipher modelled by its contract (`FernetModel`);
* `sendOtp`/`verifyOtp`/`verify2fa` embed the bodies of
  `_send_otp_async`, `_verify_otp_async` and `_verify_2fa_async`,
  with each provider call's outcome passed in explicitly and the
  session dictionary, the active-client dictionary and the set of
  connected client instances carried as explicit state;
* `runAsync` embeds `AsyncManager.run_async` and its per-thread
  event-loop cache.

Python's `re.findall(r'\b\d{5}\b', text)` is embedded as the list of
maximal word-character runs of `text` that consist of exactly five
digits: a `\b` boundary exists exactly at the edges of maximal runs of
word characters, so the matches of that pattern are precisely those runs.
-/

namespace IddAddBot

/-! ## OTP code extraction (`otp.py`, `account.py`) -/

/-- A regex word character (`\w`): letter, digit or underscore. -/
def isWordChar (c : Char) : Bool := c.isAlphanum || c == '_'

/-- Split a character list into its maximal runs of word characters,
accumulator-style so that it evaluates by `decide`. -/
def wordRunsAux (l : List Char) (acc : List Char) : List (List Char) :=
  match l with
  | [] => if acc.isEmpty then [] else [acc.reverse]
  | c :: cs =>
    if isWordChar c then
      wordRunsAux cs (c :: acc)
    else
      if acc.isEmpty then wordRunsAux cs [] else acc.reverse :: wordRunsAux cs []

/-- Maximal word-character runs of a string, in order. -/
def wordRuns (s : String) : List (List Char) := wordRunsAux s.data []

/-- `re.findall(r'\b\d{n}\b', s)`: the maximal word runs that are exactly
`n` digits, in order. -/
def findCodes (n : Nat) (s : String) : List String :=
  ((wordRuns s).filter (fun r => r.length == n && r.all Char.isDigit)).map String.mk

/-- `re.findall(r'\b\d{5,6}\b', s)`: maximal word runs of 5 or 6 digits. -/
def findCodes56 (s : String) : List String :=
  ((wordRuns s).filter
    (fun r => (r.length == 5 || r.length == 6) && r.all Char.isDigit)).map String.mk

/-- `otp.py::extract_otp_from_text`: first standalone 5-digit run, else
first standalone 6-digit run, else `none`. -/
def extractOtpFromText (text : String) : Option String :=
  if text = "" then none
  else
    match findCodes 5 text with
    | c :: _ => some c
    | [] =>
      match findCodes 6 text with
      | c :: _ => some c
      | [] => none

/-- One fetched message: its text (empty string models a message without
text, which Python treats as falsy) and its date (`none` models a missing
`message.date`). -/
structure Msg where
  text : String
  date : Option Nat
deriving DecidableEq, Repr

/-- `message.date.timestamp() if message.date else 0`. -/
def mtimeOf (m : Msg) : Nat := m.date.getD 0

/-- The 5-digit block of the 777000 loop body: record the first standalone
5-digit run of the message if its timestamp beats the recorded one. -/
def upd5 (acc : Option String × Option Nat) (m : Msg) :
    Option String × Option Nat :=
  match findCodes 5 m.text with
  | [] => acc
  | c :: _ =>
    if acc.2 = none ∨ mtimeOf m > acc.2.getD 0 then (some c, some (mtimeOf m))
    else acc

/-- The 6-digit block of the 777000 loop body (`if not latest_otp:`): a
6-digit run is considered only while no code at all has been recorded. -/
def upd6 (acc1 : Option String × Option Nat) (m : Msg) :
    Option String × Option Nat :=
  match acc1.1 with
  | some _ => acc1
  | none =>
    match findCodes 6 m.text with
    | [] => acc1
    | c :: _ =>
      if acc1.2 = none ∨ mtimeOf m > acc1.2.getD 0 then (some c, some (mtimeOf m))
      else acc1

/-- One iteration of the 777000 history loop of `_get_latest_otp_async`:
skip textless messages, then apply the 5-digit block and the guarded
6-digit block. -/
def scan777Step (acc : Option String × Option Nat) (m : Msg) :
    Option String × Option Nat :=
  if m.text = "" then acc else upd6 (upd5 acc m) m

/-- Whether `pat` occurs in `s` lowercased (`pat in s.lower()`). -/
def containsLower (s pat : String) : Bool :=
  decide (List.IsInfix pat.data s.toLower.data)

/-- One iteration of the `"Telegram"` chat loop of `_get_latest_otp_async`:
only messages mentioning "code" or "verify" are considered, with the
combined 5-or-6-digit pattern. -/
def scanTgStep (acc : Option String × Option Nat) (m : Msg) :
    Option String × Option Nat :=
  if m.text = "" then acc
  else
    if containsLower m.text "code" || containsLower m.text "verify" then
      match findCodes56 m.text with
      | [] => acc
      | c :: _ =>
        let t := mtimeOf m
        if acc.2 = none ∨ t > acc.2.getD 0 then (some c, some t) else acc
    else acc

/-- The scan core of `_get_latest_otp_async` (lines 807-845): scan the
777000 history; only if no code was found there, scan the `"Telegram"`
chat history (the recorded latest time carries over). -/
def getLatestOtp (hist777 histTg : List Msg) : Option String :=
  let acc := hist777.foldl scan777Step (none, none)
  match acc.1 with
  | some o => some o
  | none => (histTg.foldl scanTgStep acc).1

/-! ## Encryption manager (`account.py::EncryptionManager`) -/

/-- The Fernet cipher of one `EncryptionManager` instance, modelled by its
interface: `enc s = none` models `s.encode()` raising (the only failure of
`encrypt`), `dec d = none` models `cipher.decrypt` (or `d.encode()`)
raising on an input that is not a valid ciphertext. -/
structure FernetModel where
  enc : String → Option String
  dec : String → Option String

/-- `EncryptionManager.encrypt`: the ciphertext, falling back to the
plaintext when encryption fails. -/
def encrypt (m : FernetModel) (s : String) : String :=
  match m.enc s with
  | some c => c
  | none => s

/-- `EncryptionManager.decrypt`: the plaintext, returning the input
unchanged when it does not decrypt. -/
def decrypt (m : FernetModel) (s : String) : String :=
  match m.dec s with
  | some p => p
  | none => s

/-! ## Session store and login state machine (`account.py`) -/

/-- One entry of `self.login_sessions` as stored by `_send_otp_async`:
the backing client instance (identified by a number), the device profile
index, the phone, the creation timestamp, the provider's code hash and
the expiry instant (`timestamp + 300`).  There is no stage field: the
source stores none. -/
structure SessionData where
  clientId : Nat
  device : Nat
  phone : String
  timestamp : Nat
  phoneCodeHash : String
  expiresAt : Nat
deriving DecidableEq, Repr

/-- The manager's shared mutable state: the `login_sessions` dict, the
`active_clients` dict (phone to client instance) and the set of client
instances currently connected. -/
structure MgrState where
  loginSessions : List (String × SessionData)
  activeClients : List (String × Nat)
  connected : List Nat
deriving DecidableEq, Repr

/-- Dictionary lookup on an association list. -/
def alookup {α : Type} (l : List (String × α)) (k : String) : Option α :=
  (l.find? (fun p => p.1 == k)).map (fun p => p.2)

/-- Dictionary deletion. -/
def aremove {α : Type} (l : List (String × α)) (k : String) : List (String × α) :=
  l.filter (fun p => !(p.1 == k))

/-- Dictionary insertion/overwrite. -/
def ainsert {α : Type} (l : List (String × α)) (k : String) (v : α) :
    List (String × α) :=
  (k, v) :: aremove l k

/-- `await client.connect()`: mark the client instance connected. -/
def connectClient (st : MgrState) (c : Nat) : MgrState :=
  { st with connected := c :: st.connected.filter (fun x => !(x == c)) }

/-- `_safe_disconnect`: disconnect the client if connected; idempotent. -/
def safeDisconnect (st : MgrState) (c : Nat) : MgrState :=
  { st with connected := st.connected.filter (fun x => !(x == c)) }

/-- Whether a client instance is currently connected. -/
def isConnected (st : MgrState) (c : Nat) : Bool := st.connected.contains c

/-- Outcome of the provider interaction inside `_send_otp_async`:
`send_code` returned a hash; `get_me` found the number already
authorized; `send_code` raised `FloodWait(seconds)`;
`PhoneNumberInvalid`; any other exception. -/
inductive SendOutcome
  | sentOk (phoneCodeHash : String)
  | alreadyAuthorized
  | floodWait (seconds : Nat)
  | phoneInvalid
  | failed
deriving DecidableEq, Repr

/-- The dictionary `_send_otp_async` returns, restricted to the fields the
claims read. -/
structure SendResult where
  success : Bool
  errorCode : Option String := none
  phoneCodeHash : Option String := none
  sessionKey : Option String := none
  waitTime : Option Nat := none
  expiresIn : Option Nat := none
deriving DecidableEq, Repr

/-- `account.py::_send_otp_async`.  `timestamp` is `int(time.time())`,
`cid` the fresh client instance, `key` the generated session key and
`device` the chosen device profile.  On success the session is stored
with `expires_at = timestamp + 300` and the client is left connected; on
`FloodWait` and generic failure the client is disconnected and nothing is
stored; the `PhoneNumberInvalid` handler returns without disconnecting. -/
def sendOtp (st : MgrState) (phone : String) (timestamp : Nat) (cid : Nat)
    (key : String) (device : Nat) (outcome : SendOutcome) :
    SendResult × MgrState :=
  let st1 := connectClient st cid
  match outcome with
  | .alreadyAuthorized =>
    ({ success := false, errorCode := some "ALREADY_AUTHORIZED" },
     safeDisconnect st1 cid)
  | .sentOk h =>
    let sd : SessionData :=
      { clientId := cid, device := device, phone := phone,
        timestamp := timestamp, phoneCodeHash := h,
        expiresAt := timestamp + 300 }
    ({ success := true, phoneCodeHash := some h, sessionKey := some key,
       expiresIn := some 300 },
     { st1 with loginSessions := ainsert st1.loginSessions key sd })
  | .floodWait w =>
    ({ success := false, errorCode := some "FLOOD_WAIT", waitTime := some w },
     safeDisconnect st1 cid)
  | .phoneInvalid =>
    ({ success := false, errorCode := some "INVALID_PHONE" }, st1)
  | .failed =>
    ({ success := false, errorCode := some "UNKNOWN_ERROR" },
     safeDisconnect st1 cid)

/-- Outcome of `client.sign_in` (and of the code after it) inside
`_verify_otp_async`: authorized (and export succeeded);
`SessionPasswordNeeded`; `PhoneCodeInvalid`; `PhoneCodeExpired`; any
other exception (handled by the outer `except`). -/
inductive SignOutcome
  | ok
  | needs2fa
  | codeInvalid
  | codeExpired
  | failed
deriving DecidableEq, Repr

/-- The dictionary `_verify_otp_async`/`_verify_2fa_async` return,
restricted to the fields the claims read. -/
structure VerifyResult where
  success : Bool
  errorCode : Option String := none
  needs2fa : Bool := false
  sessionKey : Option String := none
  sessionString : Option String := none
  rawSession : Option String := none
  has2fa : Option Bool := none
  twoStepPassword : Option String := none
deriving DecidableEq, Repr

/-- `account.py::_verify_otp_async`.  `now` is `time.time()` at the expiry
check and `exported` the provider's session string.  The expiry check
disconnects and evicts; `needs_2fa`, `INVALID_CODE` and `CODE_EXPIRED`
return directly, leaving the state untouched; success moves the client
into `active_clients` (still connected) and deletes the session; the
outer handler deletes the session and disconnects. -/
def verifyOtp (em : FernetModel) (st : MgrState) (key : String) (now : Nat)
    (outcome : SignOutcome) (exported : String) : VerifyResult × MgrState :=
  match alookup st.loginSessions key with
  | none => ({ success := false, errorCode := some "SESSION_EXPIRED" }, st)
  | some sd =>
    if now > sd.expiresAt then
      ({ success := false, errorCode := some "SESSION_EXPIRED" },
       let st1 := safeDisconnect st sd.clientId
       { st1 with loginSessions := aremove st1.loginSessions key })
    else
      match outcome with
      | .needs2fa =>
        ({ success := false, needs2fa := true, sessionKey := some key }, st)
      | .codeInvalid =>
        ({ success := false, errorCode := some "INVALID_CODE" }, st)
      | .codeExpired =>
        ({ success := false, errorCode := some "CODE_EXPIRED" }, st)
      | .ok =>
        ({ success := true, sessionString := some (encrypt em exported),
           rawSession := some exported, has2fa := some false },
         { st with
           activeClients := ainsert st.activeClients sd.phone sd.clientId,
           loginSessions := aremove st.loginSessions key })
      | .failed =>
        ({ success := false, errorCode := some "VERIFICATION_FAILED" },
         let st1 := safeDisconnect st sd.clientId
         { st1 with loginSessions := aremove st1.loginSessions key })

/-- Outcome of the provider interaction inside `_verify_2fa_async`:
`check_password` accepted (and export succeeded); `check_password`
raised (inner handler); a later call raised (outer handler). -/
inductive PwOutcome
  | ok
  | badPassword
  | exportFailed
deriving DecidableEq, Repr

/-- `account.py::_verify_2fa_async`.  Returns the result, the new state
and whether the password was submitted to the provider
(`check_password` reached).  There is no expiry check and no stage
check: any stored session proceeds straight to `check_password`.  A
rejected password returns `INVALID_2FA` leaving the state untouched;
success stores the active client and deletes the session; the outer
handler deletes the session. -/
def verify2fa (em : FernetModel) (st : MgrState) (key : String)
    (password : String) (outcome : PwOutcome) (exported : String) :
    VerifyResult × MgrState × Bool :=
  match alookup st.loginSessions key with
  | none =>
    ({ success := false, errorCode := some "SESSION_EXPIRED" }, st, false)
  | some sd =>
    match outcome with
    | .badPassword =>
      ({ success := false, errorCode := some "INVALID_2FA" }, st, true)
    | .ok =>
      ({ success := true, sessionString := some (encrypt em exported),
         rawSession := some exported, has2fa := some true,
         twoStepPassword := some password },
       { st with
         activeClients :=
           if sd.phone = "" then st.activeClients
           else ainsert st.activeClients sd.phone sd.clientId,
         loginSessions := aremove st.loginSessions key },
       true)
    | .exportFailed =>
      ({ success := false, errorCode := some "INVALID_2FA" },
       let st1 := safeDisconnect st sd.clientId
       { st1 with loginSessions := aremove st1.loginSessions key },
       true)

/-! ## Execution bridge (`account.py::AsyncManager`) -/

/-- One asyncio event loop as the cache sees it. -/
structure LoopInfo where
  id : Nat
  closed : Bool
  running : Bool
deriving DecidableEq, Repr

/-- The `AsyncManager` singleton's state: the `_thread_loops` cache
(thread id to loop) and a supply of fresh loop ids. -/
structure AsyncState where
  threadLoops : List (Nat × LoopInfo)
  nextId : Nat
deriving DecidableEq, Repr

/-- Lookup in the `_thread_loops` cache. -/
def lookupLoop (l : List (Nat × LoopInfo)) (t : Nat) : Option LoopInfo :=
  (l.find? (fun p => p.1 == t)).map (fun p => p.2)

/-- Overwrite a thread's cached loop. -/
def insertLoop (l : List (Nat × LoopInfo)) (t : Nat) (v : LoopInfo) :
    List (Nat × LoopInfo) :=
  (t, v) :: l.filter (fun p => !(p.1 == t))

/-- `AsyncManager.get_event_loop_for_thread`: return the cached loop for
the thread unless it is absent or closed, in which case create, cache and
return a fresh loop.  The middle component records whether a fresh loop
was created. -/
def getEventLoopForThread (st : AsyncState) (tid : Nat) :
    LoopInfo × Bool × AsyncState :=
  match lookupLoop st.threadLoops tid with
  | some l =>
    if l.closed then
      let nl : LoopInfo := { id := st.nextId, closed := false, running := false }
      (nl, true, { threadLoops := insertLoop st.threadLoops tid nl,
                   nextId := st.nextId + 1 })
    else (l, false, st)
  | none =>
    let nl : LoopInfo := { id := st.nextId, closed := false, running := false }
    (nl, true, { threadLoops := insertLoop st.threadLoops tid nl,
                 nextId := st.nextId + 1 })

/-- What one `run_async` invocation did with event loops. -/
structure RunTrace where
  usedLoopId : Nat
  freshLoop : Bool
  discardedAfter : Bool
deriving DecidableEq, Repr

/-- `AsyncManager.run_async` (happy path): fetch the thread's cached
loop; if it is running, run on a brand-new loop in a separate thread and
close it; otherwise run on the cached loop, which stays cached after the
call returns. -/
def runAsync (st : AsyncState) (tid : Nat) : RunTrace × AsyncState :=
  let g := getEventLoopForThread st tid
  let l := g.1
  let fresh := g.2.1
  let st1 := g.2.2
  if l.running then
    ({ usedLoopId := st1.nextId, freshLoop := true, discardedAfter := true },
     { st1 with nextId := st1.nextId + 1 })
  else
    ({ usedLoopId := l.id, freshLoop := fresh, discardedAfter := false }, st1)

/-! ## Concrete instances used by witnesses and counterexamples -/

/-- A cipher model whose operations always fail: `encrypt` then always
falls back to the plaintext.  Used only to drive the state machine at
concrete inputs. -/
def em0 : FernetModel := ⟨fun _ => none, fun _ => none⟩

/-- A cipher model that prepends a marker character; it satisfies the
Fernet contract and its encryption never fails. -/
def emId : FernetModel :=
  ⟨fun s => some (String.mk ('E' :: s.data)),
   fun s =>
     match s.data with
     | [] => none
     | c :: rest => if c = 'E' then some (String.mk rest) else none⟩

/-- A live, unexpired session as `_send_otp_async` would store it. -/
def sd1 : SessionData := ⟨7, 0, "+15551234567", 100, "H", 400⟩

/-- A store holding `sd1` under key `"K"`, its client connected. -/
def st1 : MgrState := ⟨[("K", sd1)], [], [7]⟩

/-- A session whose expiry instant 100 has already passed at time 200. -/
def sdExp : SessionData := ⟨7, 0, "+15551234567", 0, "H", 100⟩

/-- A store still holding the expired session `sdExp` under `"K"`. -/
def stExp : MgrState := ⟨[("K", sdExp)], [], [7]⟩

/-- The empty manager state. -/
def st0 : MgrState := ⟨[], [], []⟩

/-- An `AsyncManager` cache in which thread 0 already owns the open,
idle event loop number 5. -/
def stA : AsyncState := ⟨[(0, ⟨5, false, false⟩)], 6⟩

/-! ## Helper lemmas -/

lemma findCodes_of_empty (n : Nat) : findCodes n "" = [] := rfl

lemma upd5_max (acc : Option String × Option Nat) (m : Msg) (c : String)
    (r : List String) (hc : findCodes 5 m.text = c :: r)
    (hacc : ∀ u, acc.2 = some u → u < mtimeOf m) :
    upd5 acc m = (some c, some (mtimeOf m)) := by
  have hcond : acc.2 = none ∨ mtimeOf m > acc.2.getD 0 := by
    cases h2 : acc.2 with
    | none => exact Or.inl rfl
    | some u => exact Or.inr (by simpa using hacc u h2)
  unfold upd5
  rw [hc]
  exact if_pos hcond

lemma upd6_some (acc1 : Option String × Option Nat) (m : Msg) (x : String)
    (hx : acc1.1 = some x) : upd6 acc1 m = acc1 := by
  unfold upd6
  rw [hx]

lemma scan777Step_max (acc : Option String × Option Nat) (m : Msg) (c : String)
    (r : List String) (hc : findCodes 5 m.text = c :: r)
    (hacc : ∀ u, acc.2 = some u → u < mtimeOf m) :
    scan777Step acc m = (some c, some (mtimeOf m)) := by
  have htext : ¬ m.text = "" := by
    intro h
    rw [h, findCodes_of_empty] at hc
    cases hc
  unfold scan777Step
  rw [if_neg htext, upd5_max acc m c r hc hacc, upd6_some _ _ c rfl]

lemma scan777Step_stale (x : String) (T : Nat) (m : Msg)
    (hle : mtimeOf m ≤ T) :
    scan777Step (some x, some T) m = (some x, some T) := by
  unfold scan777Step
  by_cases htext : m.text = ""
  · rw [if_pos htext]
  · rw [if_neg htext]
    have h5 : upd5 (some x, some T) m = (some x, some T) := by
      unfold upd5
      cases hfc : findCodes 5 m.text with
      | nil => rfl
      | cons c cs =>
        exact if_neg (by
          rintro (h | h)
          · exact Option.noConfusion h
          · exact absurd hle (not_le.mpr h))
    rw [h5, upd6_some _ _ x rfl]

lemma upd5_snd (acc : Option String × Option Nat) (m : Msg) :
    (upd5 acc m).2 = acc.2 ∨ (upd5 acc m).2 = some (mtimeOf m) := by
  unfold upd5
  split
  · exact Or.inl rfl
  · split
    · exact Or.inr rfl
    · exact Or.inl rfl

lemma upd6_snd (acc1 : Option String × Option Nat) (m : Msg) :
    (upd6 acc1 m).2 = acc1.2 ∨ (upd6 acc1 m).2 = some (mtimeOf m) := by
  unfold upd6
  split
  · exact Or.inl rfl
  · split
    · exact Or.inl rfl
    · split
      · exact Or.inr rfl
      · exact Or.inl rfl

lemma scan777Step_snd (acc : Option String × Option Nat) (m : Msg) :
    (scan777Step acc m).2 = acc.2 ∨ (scan777Step acc m).2 = some (mtimeOf m) := by
  unfold scan777Step
  split
  · exact Or.inl rfl
  · rcases upd6_snd (upd5 acc m) m with h | h
    · rw [h]; exact upd5_snd acc m
    · exact Or.inr h

lemma scan777Step_lt (acc : Option String × Option Nat) (m : Msg) (T : Nat)
    (hm : mtimeOf m < T) (hacc : ∀ u, acc.2 = some u → u < T) :
    ∀ u, (scan777Step acc m).2 = some u → u < T := by
  intro u hu
  rcases scan777Step_snd acc m with h | h
  · exact hacc u (h ▸ hu)
  · rw [h] at hu
    cases hu
    exact hm

lemma foldl_scan_stale (l : List Msg) (x : String) (T : Nat)
    (h : ∀ m ∈ l, mtimeOf m ≤ T) :
    l.foldl scan777Step (some x, some T) = (some x, some T) := by
  induction l with
  | nil => rfl
  | cons a t ih =>
    rw [List.foldl_cons, scan777Step_stale x T a (h a (List.mem_cons_self a t))]
    exact ih (fun m hm => h m (List.mem_cons_of_mem a hm))

lemma foldl_scan_max (m : Msg) (c : String) (r : List String)
    (hc : findCodes 5 m.text = c :: r) :
    ∀ (l : List Msg) (acc : Option String × Option Nat),
      m ∈ l →
      (∀ x ∈ l, x ≠ m → mtimeOf x < mtimeOf m) →
      (∀ u, acc.2 = some u → u < mtimeOf m) →
      l.foldl scan777Step acc = (some c, some (mtimeOf m)) := by
  intro l
  induction l with
  | nil => intro acc hm _ _; cases hm
  | cons a t ih =>
    intro acc hm hmax hacc
    rw [List.foldl_cons]
    by_cases ha : a = m
    · subst ha
      rw [scan777Step_max acc a c r hc hacc]
      exact foldl_scan_stale t c (mtimeOf a) (fun x hx => by
        by_cases hxm : x = a
        · subst hxm; exact le_refl _
        · exact le_of_lt (hmax x (List.mem_cons_of_mem a hx) hxm))
    · have hm2 : m ∈ t := by
        rcases List.mem_cons.mp hm with h | h
        · exact absurd h.symm ha
        · exact h
      exact ih (scan777Step acc a) hm2
        (fun x hx hxm => hmax x (List.mem_cons_of_mem a hx) hxm)
        (scan777Step_lt acc a (mtimeOf m)
          (hmax a (List.mem_cons_self a t) ha) hacc)

lemma alookup_ainsert {α : Type} (l : List (String × α)) (k : String) (v : α) :
    alookup (ainsert l k v) k = some v := by
  unfold alookup ainsert
  rw [List.find?_cons_of_pos _ (by simp)]
  rfl

lemma alookup_aremove {α : Type} (l : List (String × α)) (k : String) :
    alookup (aremove l k) k = none := by
  unfold alookup aremove
  rw [List.find?_eq_none.mpr (fun x hx => by
    have h2 := (List.mem_filter.mp hx).2
    simp at h2 ⊢
    exact h2)]
  rfl

lemma mem_aremove_subset {α : Type} {l : List (String × α)} {k : String}
    {p : String × α} (h : p ∈ aremove l k) : p ∈ l :=
  (List.mem_filter.mp h).1

lemma verifyOtp_sessions_subset (em : FernetModel) (st : MgrState) (key : String)
    (now : Nat) (outcome : SignOutcome) (exported : String) :
    ∀ p ∈ (verifyOtp em st key now outcome exported).2.loginSessions,
      p ∈ st.loginSessions := by
  unfold verifyOtp
  split
  · exact fun p hp => hp
  · split
    · exact fun p hp => mem_aremove_subset hp
    · split <;> intro p hp <;> first | exact hp | exact mem_aremove_subset hp

lemma verify2fa_sessions_subset (em : FernetModel) (st : MgrState) (key : String)
    (pw : String) (outcome : PwOutcome) (exported : String) :
    ∀ p ∈ (verify2fa em st key pw outcome exported).2.1.loginSessions,
      p ∈ st.loginSessions := by
  unfold verify2fa
  split
  · exact fun p hp => hp
  · split <;> intro p hp <;> first | exact hp | exact mem_aremove_subset hp

lemma emId_h1 : ∀ a c, emId.enc a = some c → emId.dec c = some a := by
  intro a c h
  have hc : c = String.mk ('E' :: a.data) := by
    have h2 := h.symm
    injection h2
  subst hc
  show emId.dec (String.mk ('E' :: a.data)) = some a
  cases a with
  | mk l => rfl

lemma emId_h2 : ∀ a, emId.enc a = none → emId.dec a = none := by
  intro a h
  exact Option.noConfusion h

/-! ## Claim theorems -/

/-- Claim C1, amended: when the provider reports the submitted code as
invalid or expired during `verify_otp`, the call returns the matching
error code but the attempt is NOT removed from the session store — the
state is left completely unchanged, so a second `verify_otp` with the
same key is processed again (returning `INVALID_CODE` again for the same
provider outcome) instead of reporting `SESSION_EXPIRED`
(AttemptNotFound). -/
theorem C1_invalid_code_keeps_attempt (em : FernetModel) (st : MgrState)
    (key : String) (sd : SessionData) (now : Nat) (exported : String)
    (h1 : alookup st.loginSessions key = some sd)
    (h2 : ¬ now > sd.expiresAt) :
    (verifyOtp em st key now .codeInvalid exported).1.errorCode = some "INVALID_CODE" ∧
    (verifyOtp em st key now .codeInvalid exported).2 = st ∧
    (verifyOtp em st key now .codeExpired exported).1.errorCode = some "CODE_EXPIRED" ∧
    (verifyOtp em st key now .codeExpired exported).2 = st ∧
    (verifyOtp em (verifyOtp em st key now .codeInvalid exported).2 key now
        .codeInvalid exported).1.errorCode = some "INVALID_CODE" := by
  have e1 : verifyOtp em st key now .codeInvalid exported
      = ({ success := false, errorCode := some "INVALID_CODE" }, st) := by
    unfold verifyOtp
    rw [h1]
    exact if_neg h2
  have e2 : verifyOtp em st key now .codeExpired exported
      = ({ success := false, errorCode := some "CODE_EXPIRED" }, st) := by
    unfold verifyOtp
    rw [h1]
    exact if_neg h2
  refine ⟨by rw [e1], by rw [e1], by rw [e2], by rw [e2], ?_⟩
  rw [e1]
  show (verifyOtp em st key now .codeInvalid exported).1.errorCode = some "INVALID_CODE"
  rw [e1]

/-- Claim C1 counterexample: on a live attempt, `verify_otp` with a
provider-rejected code returns `INVALID_CODE`, yet the attempt is still
in the store and a second `verify_otp` with the same key does not return
the `SESSION_EXPIRED` (AttemptNotFound) condition the claim requires. -/
theorem C1_attempt_not_removed_cex :
    (verifyOtp em0 st1 "K" 100 .codeInvalid "TOK").1.errorCode = some "INVALID_CODE" ∧
    alookup (verifyOtp em0 st1 "K" 100 .codeInvalid "TOK").2.loginSessions "K" = some sd1 ∧
    ¬ (verifyOtp em0 (verifyOtp em0 st1 "K" 100 .codeInvalid "TOK").2 "K" 100
        .codeInvalid "TOK").1.errorCode = some "SESSION_EXPIRED" := by decide

/-- Witness instantiating `C1_invalid_code_keeps_attempt` at a concrete
live attempt. -/
theorem C1_invalid_code_keeps_attempt_witness :
    (verifyOtp em0 st1 "K" 100 .codeInvalid "TOK").1.errorCode = some "INVALID_CODE" :=
  (C1_invalid_code_keeps_attempt em0 st1 "K" sd1 100 "TOK" (by decide) (by decide)).1

/-- Claim C2, amended: `verify_otp` does check expiry — once
`now > expiresAt` it reports `SESSION_EXPIRED` and evicts the attempt —
and the TTL is fixed at creation (`expires_at = timestamp + 300`) and
never rewritten, since `verify_otp` and `verify_2fa` only ever keep a
stored session verbatim or delete it.  However `verify_2fa` performs no
expiry check at all (see the counterexample): only `verify_otp` and the
background sweep enforce the deadline. -/
theorem C2_expiry_checked_only_in_verifyOtp (em : FernetModel) (st : MgrState)
    (key : String) (sd : SessionData) (now : Nat) (outcome : SignOutcome)
    (exported pw : String)
    (h1 : alookup st.loginSessions key = some sd)
    (h2 : now > sd.expiresAt) :
    (verifyOtp em st key now outcome exported).1.errorCode = some "SESSION_EXPIRED" ∧
    alookup (verifyOtp em st key now outcome exported).2.loginSessions key = none ∧
    (∀ p ∈ (verifyOtp em st key now outcome exported).2.loginSessions,
      p ∈ st.loginSessions) ∧
    (∀ p ∈ (verify2fa em st key pw .ok exported).2.1.loginSessions,
      p ∈ st.loginSessions) ∧
    (∀ (st2 : MgrState) (ph : String) (ts cid : Nat) (k2 : String) (dev : Nat)
        (hh : String),
      alookup (sendOtp st2 ph ts cid k2 dev (.sentOk hh)).2.loginSessions k2
        = some ⟨cid, dev, ph, ts, hh, ts + 300⟩) := by
  have e1 : verifyOtp em st key now outcome exported
      = ({ success := false, errorCode := some "SESSION_EXPIRED" },
         { safeDisconnect st sd.clientId with
           loginSessions := aremove st.loginSessions key }) := by
    unfold verifyOtp
    rw [h1]
    exact if_pos h2
  refine ⟨by rw [e1], ?_, ?_, ?_, ?_⟩
  · rw [e1]
    exact alookup_aremove st.loginSessions key
  · rw [e1]
    exact fun p hp => mem_aremove_subset hp
  · exact verify2fa_sessions_subset em st key pw .ok exported
  · intro st2 ph ts cid k2 dev hh
    exact alookup_ainsert st2.loginSessions k2 _

/-- Claim C2 counterexample: an attempt whose expiry instant 100 has
passed at time 200 but which the sweep has not yet evicted is happily
processed by `verify_2fa`: the secret is submitted and the call succeeds
instead of reporting the AttemptNotFound/expired condition. -/
theorem C2_verify2fa_ignores_expiry_cex :
    (200 : Nat) > sdExp.expiresAt ∧
    (verify2fa em0 stExp "K" "pw" .ok "TOK").1.success = true ∧
    (verify2fa em0 stExp "K" "pw" .ok "TOK").2.2 = true ∧
    ¬ (verify2fa em0 stExp "K" "pw" .ok "TOK").1.errorCode = some "SESSION_EXPIRED" := by
  decide

/-- Witness instantiating `C2_expiry_checked_only_in_verifyOtp` at the
concrete expired attempt. -/
theorem C2_expiry_checked_only_in_verifyOtp_witness :
    (verifyOtp em0 stExp "K" 200 .ok "TOK").1.errorCode = some "SESSION_EXPIRED" :=
  (C2_expiry_checked_only_in_verifyOtp em0 stExp "K" sdExp 200 .ok "TOK" "pw"
    (by decide) (by decide)).1

/-- Claim C3, amended: among 5-digit candidates the most recently
timestamped message wins regardless of scan order — if one message of the
scanned 777000 window carries a standalone 5-digit run and is strictly
newer than every other message, its code is returned (in particular
scenario D: "54321" at t=10 and "99999" at t=20 yields "99999").  The
rule does not extend across candidate widths: a recorded code suppresses
6-digit candidates of later-scanned messages (see the counterexample). -/
theorem C3_latest_timestamp_wins_among_5digit (hist : List Msg) (m : Msg)
    (c : String) (r : List String)
    (hm : m ∈ hist) (hc : findCodes 5 m.text = c :: r)
    (hmax : ∀ x ∈ hist, x ≠ m → mtimeOf x < mtimeOf m) :
    getLatestOtp hist [] = some c := by
  unfold getLatestOtp
  rw [foldl_scan_max m c r hc hist (none, none) hm hmax (fun u h => by cases h)]

/-- Claim C3 counterexample: a window holding the 5-digit candidate
"54321" at t=20 and the 6-digit candidate "999999" at t=30 returns
"54321", not the code attached to the most recently timestamped
message. -/
theorem C3_cross_width_not_latest_cex :
    getLatestOtp [⟨"Netflix code 54321", some 20⟩,
                  ⟨"Netflix code 999999", some 30⟩] [] = some "54321" ∧
    findCodes56 "Netflix code 999999" = ["999999"] ∧
    (30 : Nat) > 20 := by decide

/-- Witness instantiating `C3_latest_timestamp_wins_among_5digit` at the
spec's scenario D: codes "54321" at t=10 and "99999" at t=20, older one
first in scan order, yields "99999". -/
theorem C3_latest_timestamp_wins_among_5digit_witness :
    getLatestOtp [⟨"Your login code is 54321", some 10⟩,
                  ⟨"Your login code is 99999", some 20⟩] [] = some "99999" :=
  C3_latest_timestamp_wins_among_5digit _ ⟨"Your login code is 99999", some 20⟩
    "99999" [] (by decide) (by decide) (by decide)

/-- Claim C4, amended: `verify_2fa` removes the attempt only when the
secret is accepted; when the provider rejects the password the call
returns `INVALID_2FA` and leaves the store completely unchanged, the
attempt still present and non-terminal. -/
theorem C4_verify2fa_removes_only_on_success (em : FernetModel) (st : MgrState)
    (key : String) (sd : SessionData) (pw exported : String)
    (h : alookup st.loginSessions key = some sd) :
    (verify2fa em st key pw .ok exported).1.success = true ∧
    alookup (verify2fa em st key pw .ok exported).2.1.loginSessions key = none ∧
    (verify2fa em st key pw .badPassword exported).1.errorCode = some "INVALID_2FA" ∧
    (verify2fa em st key pw .badPassword exported).2.1 = st ∧
    alookup (verify2fa em st key pw .badPassword exported).2.1.loginSessions key
      = some sd := by
  have e1 : verify2fa em st key pw .badPassword exported
      = ({ success := false, errorCode := some "INVALID_2FA" }, st, true) := by
    unfold verify2fa
    rw [h]
  have e2 : (verify2fa em st key pw .ok exported).2.1.loginSessions
      = aremove st.loginSessions key := by
    unfold verify2fa
    rw [h]
  have e3 : (verify2fa em st key pw .ok exported).1.success = true := by
    unfold verify2fa
    rw [h]
  refine ⟨e3, ?_, by rw [e1], by rw [e1], ?_⟩
  · rw [e2]
    exact alookup_aremove st.loginSessions key
  · rw [e1]
    exact h

/-- Claim C4 counterexample: a rejected second-factor secret returns
`INVALID_2FA` but the attempt is still in the session store afterwards —
the rejection outcome does not reach a terminal, deleted state. -/
theorem C4_rejected_secret_keeps_attempt_cex :
    (verify2fa em0 st1 "K" "pw" .badPassword "TOK").1.success = false ∧
    (verify2fa em0 st1 "K" "pw" .badPassword "TOK").1.errorCode = some "INVALID_2FA" ∧
    alookup (verify2fa em0 st1 "K" "pw" .badPassword "TOK").2.1.loginSessions "K"
      = some sd1 := by decide

/-- Witness instantiating `C4_verify2fa_removes_only_on_success` at a
concrete live attempt. -/
theorem C4_verify2fa_removes_only_on_success_witness :
    (verify2fa em0 st1 "K" "pw" .ok "TOK").1.success = true :=
  (C4_verify2fa_removes_only_on_success em0 st1 "K" sd1 "pw" "TOK" (by decide)).1

/-- Claim C5, amended: `verify_2fa` performs no stage check — the stored
sessions carry no stage field at all — so for any attempt present in the
store the secret is submitted to the provider (`check_password` is
reached), and no `INVALID_STATE` error exists among its outcomes. -/
theorem C5_no_stage_check (em : FernetModel) (st : MgrState) (key : String)
    (sd : SessionData) (pw : String) (outcome : PwOutcome) (exported : String)
    (h : alookup st.loginSessions key = some sd) :
    (verify2fa em st key pw outcome exported).2.2 = true ∧
    ¬ (verify2fa em st key pw outcome exported).1.errorCode = some "INVALID_STATE" := by
  unfold verify2fa
  rw [h]
  cases outcome <;> exact ⟨rfl, by simp⟩

/-- Claim C5 counterexample: on an attempt fresh out of `send_otp` —
still in the `CodeSent` stage, no second-factor challenge ever signalled
— `verify_2fa` submits the secret to the provider and succeeds, instead
of returning `InvalidState` without submitting. -/
theorem C5_codesent_secret_submitted_cex :
    (verify2fa em0 (sendOtp st0 "+15551234567" 100 7 "K" 0 (.sentOk "H")).2
        "K" "pw" .ok "TOK").1.success = true ∧
    (verify2fa em0 (sendOtp st0 "+15551234567" 100 7 "K" 0 (.sentOk "H")).2
        "K" "pw" .ok "TOK").2.2 = true ∧
    ¬ (verify2fa em0 (sendOtp st0 "+15551234567" 100 7 "K" 0 (.sentOk "H")).2
        "K" "pw" .ok "TOK").1.errorCode = some "INVALID_STATE" := by decide

/-- Witness instantiating `C5_no_stage_check` at a concrete attempt. -/
theorem C5_no_stage_check_witness :
    (verify2fa em0 st1 "K" "pw" .badPassword "TOK").2.2 = true :=
  (C5_no_stage_check em0 st1 "K" sd1 "pw" .badPassword "TOK" (by decide)).1

/-- Claim C6, amended: connections are retained, not closed, between
steps: a successful `send_otp` stores the attempt with its client still
connected, and a successful `verify_otp` moves the client into
`active_clients` without disconnecting it.  Disconnects happen only on
failure, expiry and cleanup paths. -/
theorem C6_connection_retained_after_steps (st : MgrState) (phone : String)
    (ts cid : Nat) (key : String) (dev : Nat) (hash : String)
    (em : FernetModel) (st2 : MgrState) (key2 : String) (sd : SessionData)
    (now : Nat) (exported : String)
    (hl : alookup st2.loginSessions key2 = some sd)
    (hexp : ¬ now > sd.expiresAt) :
    (sendOtp st phone ts cid key dev (.sentOk hash)).1.success = true ∧
    alookup (sendOtp st phone ts cid key dev (.sentOk hash)).2.loginSessions key
      = some ⟨cid, dev, phone, ts, hash, ts + 300⟩ ∧
    isConnected (sendOtp st phone ts cid key dev (.sentOk hash)).2 cid = true ∧
    (verifyOtp em st2 key2 now .ok exported).1.success = true ∧
    alookup (verifyOtp em st2 key2 now .ok exported).2.activeClients sd.phone
      = some sd.clientId ∧
    (verifyOtp em st2 key2 now .ok exported).2.connected = st2.connected := by
  have e1 : verifyOtp em st2 key2 now .ok exported
      = ({ success := true, sessionString := some (encrypt em exported),
           rawSession := some exported, has2fa := some false },
         { st2 with
           activeClients := ainsert st2.activeClients sd.phone sd.clientId,
           loginSessions := aremove st2.loginSessions key2 }) := by
    unfold verifyOtp
    rw [hl]
    exact if_neg hexp
  refine ⟨rfl, alookup_ainsert _ _ _, ?_, by rw [e1], ?_, by rw [e1]⟩
  · show (cid :: _).contains cid = true
    simp [List.contains_cons]
  · rw [e1]
    exact alookup_ainsert _ _ _

/-- Claim C6 counterexample: after a successful `send_otp` returns to the
caller, the attempt stored under `"K"` holds client 7 and client 7 is
still connected — an attempt holds an open connection between steps. -/
theorem C6_open_connection_in_store_cex :
    isConnected (sendOtp st0 "+15551234567" 100 7 "K" 0 (.sentOk "H")).2 7 = true ∧
    (alookup (sendOtp st0 "+15551234567" 100 7 "K" 0 (.sentOk "H")).2.loginSessions
        "K").map SessionData.clientId = some 7 := by decide

/-- Witness instantiating `C6_connection_retained_after_steps` at
concrete inputs. -/
theorem C6_connection_retained_after_steps_witness :
    isConnected (sendOtp st0 "+15551234567" 100 7 "K2" 0 (.sentOk "H")).2 7 = true :=
  (C6_connection_retained_after_steps st0 "+15551234567" 100 7 "K2" 0 "H"
    em0 st1 "K" sd1 100 "TOK" (by decide) (by decide)).2.2.1

/-- Claim C7: a `FloodWait` from the provider during `send_otp` makes the
call fail with the `FLOOD_WAIT` error code carrying the provider's wait
duration, and neither the login-session dictionary nor the active-client
dictionary is created into or mutated by the call. -/
theorem C7_floodwait_no_state_mutation (st : MgrState) (phone : String)
    (ts cid : Nat) (key : String) (dev w : Nat) :
    (sendOtp st phone ts cid key dev (.floodWait w)).1.success = false ∧
    (sendOtp st phone ts cid key dev (.floodWait w)).1.errorCode = some "FLOOD_WAIT" ∧
    (sendOtp st phone ts cid key dev (.floodWait w)).1.waitTime = some w ∧
    (sendOtp st phone ts cid key dev (.floodWait w)).2.loginSessions = st.loginSessions ∧
    (sendOtp st phone ts cid key dev (.floodWait w)).2.activeClients = st.activeClients :=
  ⟨rfl, rfl, rfl, rfl, rfl⟩

/-- Claim C8, amended: `run_async` reuses the per-thread cached event
loop whenever it exists, is not closed and is not running: the call runs
on that very loop, creates no fresh loop, discards nothing, and leaves
the cache unchanged, so an immediately following call on the same thread
runs on the same loop again.  A fresh discarded loop is used only when
the cached loop is running, absent or closed. -/
theorem C8_thread_loop_reused (st : AsyncState) (tid : Nat) (l : LoopInfo)
    (hl : lookupLoop st.threadLoops tid = some l)
    (hc : l.closed = false) (hr : l.running = false) :
    runAsync st tid
      = ({ usedLoopId := l.id, freshLoop := false, discardedAfter := false }, st) ∧
    runAsync (runAsync st tid).2 tid
      = ({ usedLoopId := l.id, freshLoop := false, discardedAfter := false }, st) := by
  have e0 : getEventLoopForThread st tid = (l, false, st) := by
    unfold getEventLoopForThread
    rw [hl]
    exact if_neg (by rw [hc]; exact Bool.false_ne_true)
  have e1 : runAsync st tid
      = ({ usedLoopId := l.id, freshLoop := false, discardedAfter := false }, st) := by
    unfold runAsync
    rw [e0]
    exact if_neg (by rw [hr]; exact Bool.false_ne_true)
  refine ⟨e1, ?_⟩
  rw [e1]
  exact e1

/-- Claim C8 counterexample: two consecutive `run_async` invocations on
thread 0 both execute on the cached loop 5 — the same asynchronous
execution context is shared across two bridged calls, no fresh loop is
created and the loop is not discarded after the first call returns. -/
theorem C8_shared_loop_across_calls_cex :
    (runAsync stA 0).1.usedLoopId = 5 ∧
    (runAsync stA 0).1.freshLoop = false ∧
    (runAsync stA 0).1.discardedAfter = false ∧
    (runAsync stA 0).2 = stA ∧
    (runAsync (runAsync stA 0).2 0).1.usedLoopId = 5 := by decide

/-- Witness instantiating `C8_thread_loop_reused` at the concrete cache
`stA`. -/
theorem C8_thread_loop_reused_witness :
    runAsync stA 0
      = ({ usedLoopId := 5, freshLoop := false, discardedAfter := false }, stA) :=
  (C8_thread_loop_reused stA 0 ⟨5, false, false⟩ (by decide) (by decide) (by decide)).1

/-- Claim C9: for every string and every `EncryptionManager` whose cipher
satisfies the Fernet contract — decrypting a produced ciphertext returns
the plaintext, and a string on which encryption fails (an unencodable
string) is not a valid ciphertext either — `decrypt (encrypt s) = s`,
including the fallback paths where `encrypt` returns the plaintext on
failure and `decrypt` returns its input unchanged. -/
theorem C9_encrypt_decrypt_roundtrip (m : FernetModel) (s : String)
    (h1 : ∀ a c, m.enc a = some c → m.dec c = some a)
    (h2 : ∀ a, m.enc a = none → m.dec a = none) :
    decrypt m (encrypt m s) = s := by
  cases h : m.enc s with
  | none =>
    have e1 : encrypt m s = s := by unfold encrypt; rw [h]
    rw [e1]
    unfold decrypt
    rw [h2 s h]
  | some c =>
    have e1 : encrypt m s = c := by unfold encrypt; rw [h]
    rw [e1]
    unfold decrypt
    rw [h1 s c h]

/-- Witness instantiating `C9_encrypt_decrypt_roundtrip` with the
contract-satisfying cipher `emId`. -/
theorem C9_encrypt_decrypt_roundtrip_witness :
    decrypt emId (encrypt emId "abc") = "abc" :=
  C9_encrypt_decrypt_roundtrip emId "abc" emId_h1 emId_h2

/-- Claim C10, amended: within a single message text,
`extract_otp_from_text` gives unconditional precedence to 5-digit codes:
whenever the text contains any standalone 5-digit run, the first such run
is returned and no 6-digit code can be the result.  Across messages in
the scraper's scan the precedence is order- and timestamp-dependent (see
the counterexample). -/
theorem C10_extract_five_digit_precedence (text : String) (c : String)
    (r : List String) (hc : findCodes 5 text = c :: r) :
    extractOtpFromText text = some c := by
  have htext : ¬ text = "" := by
    intro h
    rw [h, findCodes_of_empty] at hc
    cases hc
  unfold extractOtpFromText
  rw [if_neg htext, hc]

/-- Claim C10 counterexample: the scanned window contains the standalone
5-digit run "54321", yet `get_latest_otp` returns the 6-digit code
"999999", because the 6-digit code was recorded first with a newer
timestamp — 5-digit precedence is not unconditional in the scan. -/
theorem C10_six_digit_returned_despite_five_cex :
    getLatestOtp [⟨"Netflix code 999999", some 20⟩,
                  ⟨"Netflix code 54321", some 10⟩] [] = some "999999" ∧
    findCodes 5 "Netflix code 54321" = ["54321"] := by decide

/-- Witness instantiating `C10_extract_five_digit_precedence` on a text
holding both a 6-digit and a 5-digit run. -/
theorem C10_extract_five_digit_precedence_witness :
    extractOtpFromText "code 678901 and 12345" = some "12345" :=
  C10_extract_five_digit_precedence "code 678901 and 12345" "12345" [] (by decide)

end IddAddBot
